import Mathlib

/-!
Verification of the elika RESP proxy: a shallow embedding of the RESP
codec (pkg/respio), the base62 tenant-code utilities (pkg/common), the
dispatcher (proxy server doDispatch), the backend connection writer loop
(pkg/be_cluster/backend_conn.go) and the backend pool (fixed pool),
together with theorems settling the frozen claims about them.

Bytes are modelled as natural numbers (the value of the Go byte), byte
slices as lists of naturals; a nilable Go byte slice is an
Option (List Nat) so that nil and the empty slice stay distinct.
Go uint64 arithmetic is modelled on Nat with explicit reductions mod 2^64
where the source can wrap.
-/

namespace Elika

/-- Bytes of a Lean string literal, used to transcribe the Go source's
string and byte-slice literals. -/
def strBytes (s : String) : List Nat := s.data.map Char.toNat

/-- Carriage return byte. -/
def CR : Nat := 13

/-- Line feed byte. -/
def LF : Nat := 10

/-- The CRLF terminator used by the RESP framing. -/
def crlf : List Nat := [CR, LF]

/-- Go `string(b)` of a nilable byte slice: nil becomes the empty string. -/
def bytesOf : Option (List Nat) → List Nat
  | none => []
  | some l => l

/-!  RESP type tag bytes, from pkg/respio/types.go.  -/

def RespStatus : Nat := 43    -- '+'
def RespError : Nat := 45     -- '-'
def RespString : Nat := 36    -- '$'
def RespInt : Nat := 58       -- ':'
def RespNil : Nat := 95       -- '_'
def RespFloat : Nat := 44     -- ','
def RespBool : Nat := 35      -- '#'
def RespBlobError : Nat := 33 -- '!'
def RespVerbatim : Nat := 61  -- '='
def RespBigInt : Nat := 40    -- '('
def RespArray : Nat := 42     -- '*'
def RespMap : Nat := 37       -- '%'
def RespSet : Nat := 126      -- '~'
def RespAttr : Nat := 124     -- '|'
def RespPush : Nat := 62      -- '>'

/-- pkg/respio RespPacket: a type tag byte, a nilable Data byte slice and a
nilable Array of child packets. -/
inductive RespPacket : Type where
  | mk (ty : Nat) (dat : Option (List Nat)) (arr : Option (List RespPacket))
deriving Repr

/-- The Type field of a packet. -/
def RespPacket.ty : RespPacket → Nat
  | .mk t _ _ => t

/-- The Data field of a packet (none models a nil Go slice). -/
def RespPacket.dat : RespPacket → Option (List Nat)
  | .mk _ d _ => d

/-- The Array field of a packet (none models a nil Go slice). -/
def RespPacket.arr : RespPacket → Option (List RespPacket)
  | .mk _ _ a => a

/-- The RESP3 null singleton NilPacket. -/
def NilPacket : RespPacket := .mk RespNil none none

/-!  Reader primitives (pkg/respio resp reader).  -/

/-- Reader error kinds: io errors from the buffered reader (eof), the
package's ErrInvalidSyntax / ErrTooLarge / ErrBadCRLFEnd, and the errors
bubbled up from strconv parsing. -/
inductive RErr : Type where
  | eof
  | invalidSyntax
  | tooLarge
  | badCRLF
  | parseErr
deriving DecidableEq, Repr

/-- bufio ReadSlice up to and including the first line feed; none models
the io error returned when the stream ends before a line feed. -/
def readSlice : List Nat → Option (List Nat × List Nat)
  | [] => none
  | b :: rest =>
    if b = LF then some ([b], rest)
    else
      match readSlice rest with
      | some (line, r) => some (b :: line, r)
      | none => none

/-- readLine: ReadSlice then validate and chop the trailing CRLF. -/
def readLine (input : List Nat) : Except RErr (List Nat × List Nat) :=
  match readSlice input with
  | none => .error .eof
  | some (line, rest) =>
    if line.length < 2 ∨ line.getD (line.length - 2) 0 ≠ CR then .error .badCRLF
    else .ok (line.dropLast.dropLast, rest)

/-- ASCII digit test. -/
def isDigit (b : Nat) : Bool := 48 ≤ b ∧ b ≤ 57

/-- Value of a list of ASCII digits, most significant first. -/
def digitsToNat (l : List Nat) : Nat := l.foldl (fun acc d => acc * 10 + (d - 48)) 0

/-- Go strconv.ParseInt with base 10 and bit size 64 (also the semantics of
the reader's encodeToInt64 fast path): optional single sign, at least one
digit, all digits, result within the int64 range. -/
def goParseInt64 (b : List Nat) : Except RErr Int :=
  if b = [] then .error .invalidSyntax
  else
    let (neg, ds) :=
      match b with
      | 45 :: rest => (true, rest)   -- '-'
      | 43 :: rest => (false, rest)  -- '+'
      | _ => (false, b)
    if ds = [] ∨ ¬ ds.all isDigit then .error .parseErr
    else
      let v : Int := if neg then -(digitsToNat ds : Int) else (digitsToNat ds : Int)
      if v < -(2 ^ 63) ∨ v > 2 ^ 63 - 1 then .error .parseErr
      else .ok v

/-- ReadInt: read one line, check the CRLF ending, skip a leading
':', '$' or '*' marker if present, and parse the rest as an int64. -/
def readInt (input : List Nat) : Except RErr (Int × List Nat) :=
  match readSlice input with
  | none => .error .eof
  | some (line, rest) =>
    if line.length < 2 ∨ line.getD (line.length - 2) 0 ≠ CR then .error .badCRLF
    else
      let body := line.dropLast.dropLast
      let numPart :=
        match body with
        | 58 :: t => t
        | 36 :: t => t
        | 42 :: t => t
        | _ => body
      match goParseInt64 numPart with
      | .error e => .error e
      | .ok v => .ok (v, rest)

/-- skipCRLF: read two bytes that must be CR then LF. -/
def skipCRLF : List Nat → Except RErr (List Nat)
  | [] => .error .eof
  | b :: rest =>
    if b ≠ CR then .error .invalidSyntax
    else
      match rest with
      | [] => .error .eof
      | c :: rest2 => if c ≠ LF then .error .invalidSyntax else .ok rest2

/-- ReadResp3Len: re-read the marker byte, compare it with the expected
one, read the length line and reject lengths above 1024*1024 with
ErrTooLarge.  The input starts at the (unread) marker byte. -/
def readResp3Len (expected : Nat) : List Nat → Except RErr (Int × List Nat)
  | [] => .error .eof
  | b :: rest =>
    if b ≠ expected then .error .invalidSyntax
    else
      match readInt rest with
      | .error e => .error e
      | .ok (len, r) =>
        if len > 1024 * 1024 then .error .tooLarge
        else .ok (len, r)

/-- Result of reading a bulk payload: the packet data (none for a null
bulk), an error, or a Go runtime panic. -/
inductive BulkResult : Type where
  | ok (dat : Option (List Nat)) (rest : List Nat)
  | err (e : RErr)
  | panicked
deriving Repr

/-- BulkReadStringWithMarker: read the marker byte, the length line, then
the payload.  Length -1 yields a nil slice, lengths above 512 MiB yield
ErrTooLarge, and any other negative length reaches make with a negative
size, which panics at runtime. -/
def bulkReadStringWithMarker (marker : Nat) : List Nat → BulkResult
  | [] => .err .eof
  | b :: rest =>
    if b ≠ marker then .err .invalidSyntax
    else
      match readInt rest with
      | .error e => .err e
      | .ok (len, r) =>
        if len = -1 then .ok none r
        else if len > 512 * 1024 * 1024 then .err .tooLarge
        else if len < 0 then .panicked
        else
          let n := len.toNat
          if r.length < n then .err .eof
          else
            match skipCRLF (r.drop n) with
            | .error e => .err e
            | .ok r2 => .ok (some (r.take n)) r2

/-- ReadBool: a 't' or 'f' byte followed by CRLF; the packet data is the
strconv.FormatBool rendering of the value. -/
def readBool : List Nat → Except RErr (Bool × List Nat)
  | [] => .error .eof
  | b :: rest =>
    if b = 116 then (skipCRLF rest).map (fun r => (true, r))
    else if b = 102 then (skipCRLF rest).map (fun r => (false, r))
    else .error .invalidSyntax

/-- Exponent suffix of a decimal float literal: empty, or an 'e'/'E'
followed by an optional sign and at least one digit. -/
def floatExpOk (l : List Nat) : Bool :=
  match l with
  | [] => true
  | 101 :: t | 69 :: t =>
    let t2 :=
      match t with
      | 45 :: u => u
      | 43 :: u => u
      | _ => t
    t2 ≠ [] ∧ t2.all isDigit
  | _ => false

/-- Syntactic check approximating Go strconv.ParseFloat acceptance on one
line: optional sign, then digits with an optional fractional part and an
optional exponent.  The special and hexadecimal forms ParseFloat also
accepts are not modelled; no theorem below depends on this branch. -/
def floatSyntaxOk (l : List Nat) : Bool :=
  let t :=
    match l with
    | 45 :: t => t
    | 43 :: t => t
    | _ => l
  let ip := t.takeWhile isDigit
  let r1 := t.dropWhile isDigit
  match r1 with
  | 46 :: r2 =>
    let fp := r2.takeWhile isDigit
    let r3 := r2.dropWhile isDigit
    (ip ≠ [] ∨ fp ≠ []) ∧ floatExpOk r3
  | _ => ip ≠ [] ∧ floatExpOk r1

/-- The bytes the reader stores for a parsed double.  The Go code stores
Sprintf %g of the ParseFloat value; that floating-point canonicalization
is not modelled byte-for-byte (the line is kept as read).  No theorem
below inspects this value. -/
def floatCanon (l : List Nat) : List Nat := l

/-- strconv.FormatBool. -/
def formatBool (b : Bool) : List Nat :=
  if b then strBytes "true" else strBytes "false"

/-- strconv.Itoa / Nat to decimal ASCII. -/
def natToBytes (n : Nat) : List Nat := strBytes (Nat.repr n)

/-- strconv.FormatInt with base 10. -/
def intToBytes (v : Int) : List Nat :=
  if v < 0 then 45 :: natToBytes v.natAbs else natToBytes v.toNat

/-- Outcome of RespReader.Read on a byte stream: a packet and the
remaining bytes, a Go error return, a Go runtime panic, or exhaustion of
the interpreter fuel (an artifact of the embedding, never of the code). -/
inductive RResult : Type where
  | ok (p : RespPacket) (rest : List Nat)
  | err (e : RErr)
  | panicked
  | outOfFuel
deriving Repr

/-- Outcome of the element loop inside ReadArrayLike. -/
inductive ElemsResult : Type where
  | ok (ps : List RespPacket) (rest : List Nat)
  | err (e : RErr)
  | panicked
  | outOfFuel
deriving Repr

/-- The element loop of ReadArrayLike: read count packets in sequence with
the supplied reader, propagating errors. -/
def readElems (rd : List Nat → RResult) : Nat → List Nat → ElemsResult
  | 0, input => .ok [] input
  | count + 1, input =>
    match rd input with
    | .ok p rest =>
      match readElems rd count rest with
      | .ok ps r2 => .ok (p :: ps) r2
      | .err e => .err e
      | .panicked => .panicked
      | .outOfFuel => .outOfFuel
    | .err e => .err e
    | .panicked => .panicked
    | .outOfFuel => .outOfFuel

/-- ReadArrayLike for a reader rd of the elements: read the length with
ReadResp3Len, return a null aggregate on -1, panic on any other negative
length (make with a negative size), otherwise read length times the
multiplier elements. -/
def readArrayLike (rd : List Nat → RResult) (marker respType : Nat) (mult : Nat)
    (input : List Nat) : RResult :=
  match readResp3Len marker input with
  | .error e => .err e
  | .ok (len, rest) =>
    if len = -1 then .ok (.mk respType none none) rest
    else if len < 0 then .panicked
    else
      match readElems rd (len.toNat * mult) rest with
      | .ok ps r2 => .ok (.mk respType none (some ps)) r2
      | .err e => .err e
      | .panicked => .panicked
      | .outOfFuel => .outOfFuel

/-- RespReader.Read: dispatch on the first byte of the stream and decode
one RESP2/RESP3 value, recursively for the aggregate types.  The fuel
argument only bounds the recursion depth of the embedding. -/
def respRead : Nat → List Nat → RResult
  | 0, _ => .outOfFuel
  | fuel + 1, input =>
    match input with
    | [] => .err .eof
    | b :: rest =>
      if b = RespStatus then
        match readLine rest with
        | .error e => .err e
        | .ok (line, r) => .ok (.mk RespStatus (some line) none) r
      else if b = RespError then
        match readLine rest with
        | .error e => .err e
        | .ok (line, r) => .ok (.mk RespError (some line) none) r
      else if b = RespInt then
        -- the ':' marker is unread, then skipped again inside ReadInt
        match readInt input with
        | .error e => .err e
        | .ok (n, r) => .ok (.mk RespInt (some (intToBytes n)) none) r
      else if b = RespString then
        -- the '$' marker is unread, then re-checked by the bulk reader
        match bulkReadStringWithMarker RespString input with
        | .ok dat r => .ok (.mk RespString dat none) r
        | .err e => .err e
        | .panicked => .panicked
      else if b = RespNil then
        match skipCRLF rest with
        | .error e => .err e
        | .ok r => .ok NilPacket r
      else if b = RespBool then
        match readBool rest with
        | .error e => .err e
        | .ok (v, r) => .ok (.mk RespBool (some (formatBool v)) none) r
      else if b = RespFloat then
        match readLine rest with
        | .error e => .err e
        | .ok (line, r) =>
          if floatSyntaxOk line then .ok (.mk RespFloat (some (floatCanon line)) none) r
          else .err .parseErr
      else if b = RespBigInt then
        match readLine rest with
        | .error e => .err e
        | .ok (line, r) => .ok (.mk RespBigInt (some line) none) r
      else if b = RespVerbatim then
        match bulkReadStringWithMarker RespVerbatim input with
        | .ok dat r => .ok (.mk RespVerbatim dat none) r
        | .err e => .err e
        | .panicked => .panicked
      else if b = RespBlobError then
        match bulkReadStringWithMarker RespBlobError input with
        | .ok dat r => .ok (.mk RespBlobError dat none) r
        | .err e => .err e
        | .panicked => .panicked
      else if b = RespArray then
        readArrayLike (fun inp => respRead fuel inp) RespArray RespArray 1 input
      else if b = RespPush then
        readArrayLike (fun inp => respRead fuel inp) RespPush RespPush 1 input
      else if b = RespMap then
        readArrayLike (fun inp => respRead fuel inp) RespMap RespMap 2 input
      else if b = RespSet then
        readArrayLike (fun inp => respRead fuel inp) RespSet RespSet 1 input
      else if b = RespAttr then
        readArrayLike (fun inp => respRead fuel inp) RespAttr RespAttr 2 input
      else .err .invalidSyntax

/-!  Writer (pkg/respio/resp_writer.go).  -/

/-- Writer error kinds: ErrInvalidSyntax for an unknown packet type, the
strconv.ParseInt error in the integer case, and the fmt.Errorf for an odd
map/attribute element count. -/
inductive WErr : Type where
  | invalidSyntax
  | parseIntErr
  | oddMapLen
deriving DecidableEq, Repr

/-- WriteBulkString: a nil slice is written as the null bulk marker,
otherwise dollar, length, CRLF, payload, CRLF. -/
def writeBulkString (dat : Option (List Nat)) : List Nat :=
  match dat with
  | none => strBytes "$-1\r\n"
  | some d => RespString :: natToBytes d.length ++ crlf ++ d ++ crlf

mutual

/-- RespWriter.Write: serialize one packet, dispatching on its type tag. -/
def respWrite : RespPacket → Except WErr (List Nat)
  | .mk ty dat arr =>
    if ty = RespStatus then .ok (RespStatus :: bytesOf dat ++ crlf)
    else if ty = RespError then .ok (RespError :: bytesOf dat ++ crlf)
    else if ty = RespInt then
      match goParseInt64 (bytesOf dat) with
      | .error _ => .error .parseIntErr
      | .ok v => .ok (RespInt :: intToBytes v ++ crlf)
    else if ty = RespString then .ok (writeBulkString dat)
    else if ty = RespArray then
      match arr with
      | none => .ok (strBytes "*-1\r\n")
      | some l =>
        match writeOwnElems l with
        | .error e => .error e
        | .ok body => .ok (RespArray :: natToBytes l.length ++ crlf ++ body)
    else if ty = RespNil then .ok (strBytes "_\r\n")
    else if ty = RespFloat then .ok (RespFloat :: bytesOf dat ++ crlf)
    else if ty = RespBool then
      .ok (RespBool :: (if bytesOf dat = [116] then 116 else 102) :: crlf)
    else if ty = RespBlobError then .ok (RespBlobError :: writeBulkString dat)
    else if ty = RespVerbatim then .ok (RespVerbatim :: writeBulkString dat)
    else if ty = RespBigInt then .ok (RespBigInt :: bytesOf dat ++ crlf)
    else if ty = RespMap then writeArrayLike RespMap arr true
    else if ty = RespSet then writeArrayLike RespSet arr false
    else if ty = RespAttr then writeArrayLike RespAttr arr true
    else if ty = RespPush then writeArrayLike RespPush arr false
    else .error .invalidSyntax

/-- The element loop of WriteArray: each child is serialized with Write,
keeping its own stored tag. -/
def writeOwnElems : List RespPacket → Except WErr (List Nat)
  | [] => .ok []
  | p :: ps =>
    match respWrite p with
    | .error e => .error e
    | .ok b =>
      match writeOwnElems ps with
      | .error e => .error e
      | .ok bs => .ok (b ++ bs)

/-- writeArrayLike: a nil slice emits the null map or null array marker,
an odd element count with isMap set is an error, and otherwise the prefix,
the (halved for maps) length and the elements are emitted. -/
def writeArrayLike (pfx : Nat) (arr : Option (List RespPacket)) (isMap : Bool) :
    Except WErr (List Nat) :=
  match arr with
  | none => if pfx = RespMap then .ok (strBytes "%-1\r\n") else .ok (strBytes "*-1\r\n")
  | some l =>
    if isMap ∧ l.length % 2 ≠ 0 then .error .oddMapLen
    else
      match writeALElems pfx l with
      | .error e => .error e
      | .ok body =>
        .ok (pfx :: natToBytes (if isMap then l.length / 2 else l.length) ++ crlf ++ body)

/-- The element loop of writeArrayLike: with the array prefix every child
is coerced to bulk-string framing built from its Data field, otherwise the
child is serialized with Write. -/
def writeALElems (pfx : Nat) : List RespPacket → Except WErr (List Nat)
  | [] => .ok []
  | p :: ps =>
    match (if pfx = RespArray then .ok (writeBulkString p.dat) else respWrite p) with
    | .error e => .error e
    | .ok b =>
      match writeALElems pfx ps with
      | .error e => .error e
      | .ok bs => .ok (b ++ bs)

end

/-!  Base62 tenant codes (pkg/common/common_utils.go).  -/

/-- The EncodingAlphabet constant (64 characters; only the first 62 are
ever emitted by the encoder). -/
def encodingAlphabet : List Nat :=
  strBytes "0123456789ABCDEFGHIJKLMNOPQRSTUVWXYZabcdefghijklmnopqrstuvwxyz-_"

/-- The emission loop of EncodeBase62: while n > 0, append the alphabet
character at n mod 62 and divide n by 62.  Least significant digit first.
All uint64 operations here shrink their argument, so Nat arithmetic is
exact for inputs below 2^64. -/
def encodeLoop (n : Nat) : List Nat :=
  if h : n = 0 then []
  else encodingAlphabet.getD (n % 62) 0 :: encodeLoop (n / 62)
decreasing_by exact Nat.div_lt_self (Nat.pos_of_ne_zero h) (by norm_num)

/-- EncodeBase62: zero encodes as the first alphabet character. -/
def encodeBase62 (n : Nat) : List Nat :=
  if n = 0 then [encodingAlphabet.getD 0 0] else encodeLoop n

/-- The accumulation loop of DecodeBase62 over characters already put in
processing order (the Go loop walks the string from its last byte to its
first).  The uint64 accumulator wraps, hence the explicit mod 2^64. -/
def decodeLoop (acc : Nat) : List Nat → Except Unit Nat
  | [] => .ok acc
  | c :: cs =>
    match encodingAlphabet.findIdx? (fun b => b = c) with
    | none => .error ()
    | some pos => decodeLoop ((acc * 62 + pos) % 2 ^ 64) cs

/-- DecodeBase62: process the bytes from last to first; an invalid
character is an error (with value 0 at the Go call sites). -/
def decodeBase62 (s : List Nat) : Except Unit Nat := decodeLoop 0 s.reverse

/-- The value Go callers see when they discard the DecodeBase62 error:
0 on failure, as in tenantCode, _ := DecodeBase62(...). -/
def decodeOrZero (s : List Nat) : Nat :=
  match decodeBase62 s with
  | .ok v => v
  | .error _ => 0

/-!  AUTH and transaction helpers on RespPacket (pkg/respio/resp_packet.go,
pkg/common/auth_info.go).  -/

/-- ASCII lower-casing of one byte. -/
def toLowerAscii (b : Nat) : Nat := if 65 ≤ b ∧ b ≤ 90 then b + 32 else b

/-- bytes.EqualFold / strings.EqualFold restricted to ASCII case folding.
Every comparison in the source pairs client bytes against one of the ASCII
command words AUTH, multi, watch, exec, discard or the router mode word
sync, on which Go's Unicode simple folding coincides with ASCII folding. -/
def eqFoldAscii (a b : List Nat) : Bool :=
  a.map toLowerAscii == b.map toLowerAscii

/-- The AuthCmd constant. -/
def authCmdBytes : List Nat := strBytes "AUTH"

/-- Zero packet used to express the Go indexing authData[i] (which the
callers only perform at in-bounds positions). -/
def dfltPacket : RespPacket := .mk 0 none none

/-- RespPacket.IsAuthCmd: an Array of at least two children whose first
child is a bulk string equal to AUTH up to case. -/
def isAuthCmd (p : RespPacket) : Bool :=
  if p.ty ≠ RespArray then false
  else
    match p.arr with
    | none => false
    | some l =>
      if l.length < 2 then false
      else
        let cmdPkt := l.getD 0 dfltPacket
        if cmdPkt.ty ≠ RespString then false
        else eqFoldAscii (bytesOf cmdPkt.dat) authCmdBytes

/-- RespPacket.GetCommand: the first child's Data for nonempty arrays,
otherwise the packet's own Data. -/
def getCommand (p : RespPacket) : Option (List Nat) :=
  if p.ty = RespArray ∧ 0 < (p.arr.getD []).length then
    ((p.arr.getD []).getD 0 dfltPacket).dat
  else p.dat

/-- Transaction phases (TxCmdStateType begin / end). -/
inductive TxPhase : Type where
  | phaseBegin
  | phaseEnd
deriving DecidableEq, Repr

/-- RespPacket.IsTxCmd reduced to its phase result: Begin for MULTI/WATCH,
End for EXEC/DISCARD, none otherwise. -/
def isTxCmd (p : RespPacket) : Option TxPhase :=
  let cmd := bytesOf (getCommand p)
  if eqFoldAscii cmd (strBytes "multi") ∨ eqFoldAscii cmd (strBytes "watch") then
    some .phaseBegin
  else if eqFoldAscii cmd (strBytes "exec") ∨ eqFoldAscii cmd (strBytes "discard") then
    some .phaseEnd
  else none

/-- common.AuthInfo: nilable username and password byte slices and a
uint64 tenant code. -/
structure AuthInfo : Type where
  username : Option (List Nat)
  password : Option (List Nat)
  tenantCode : Nat
deriving DecidableEq, Repr

/-- RespPacket.ToAuthInfo: nil unless the packet is an AUTH command; for
any element count other than 3 only the password (second element) is
taken; for exactly 3 elements the username is split at the first dot, the
left side base62-decodes into the tenant code (0 when absent or invalid)
and the right side is the username. -/
def toAuthInfo (p : RespPacket) : Option AuthInfo :=
  if ¬ isAuthCmd p then none
  else
    let authData := p.arr.getD []
    if authData.length ≠ 3 then
      some ⟨none, (authData.getD 1 dfltPacket).dat, 0⟩
    else
      let authUserOpt := (authData.getD 1 dfltPacket).dat
      let authUser := bytesOf authUserOpt
      match authUser.findIdx? (fun b => b = 46) with
      | none =>
        some ⟨authUserOpt, (authData.getD 2 dfltPacket).dat, decodeOrZero []⟩
      | some idx =>
        some ⟨some (authUser.drop (idx + 1)), (authData.getD 2 dfltPacket).dat,
          decodeOrZero (authUser.take idx)⟩

/-- NewAuthPacket: a 2-element frame AUTH password when the username is
nil, otherwise a 3-element frame AUTH username password, all children in
bulk-string form. -/
def newAuthPacket (username password : Option (List Nat)) : RespPacket :=
  match username with
  | none =>
    .mk RespArray none (some
      [.mk RespString (some authCmdBytes) none,
       .mk RespString password none])
  | some u =>
    .mk RespArray none (some
      [.mk RespString (some authCmdBytes) none,
       .mk RespString (some u) none,
       .mk RespString password none])

/-!  Dispatcher (ElikaProxyServer.doDispatch).  -/

/-- The ErrNoAuth reply packet. -/
def errNoAuth : RespPacket :=
  .mk RespError (some (strBytes "NOAUTH Authentication required")) none

/-- The ErrAuthFailed reply packet. -/
def errAuthFailed : RespPacket :=
  .mk RespError (some (strBytes "WRONGPASS invalid username-password pair or user is disabled")) none

/-- What one doDispatch call does with a frame: synthesize a reply on the
client session, or hand the frame (with the auth info) to forward and so
to the backend path. -/
inductive DispatchResult : Type where
  | replyToClient (p : RespPacket)
  | forward (authInfo : Option AuthInfo) (pkt : RespPacket)
deriving Repr

/-- Zero auth info, used to express the Go nil-pointer dereference-free
access after the IsAuthCmd guard (ToAuthInfo is some there). -/
def dfltAuthInfo : AuthInfo := ⟨none, none, 0⟩

/-- ElikaProxyServer.doDispatch for one frame of one session: forward
as-is when authenticated; otherwise demand AUTH (ErrNoAuth), reject a zero
tenant code (ErrAuthFailed), and forward a rebuilt AUTH frame - username
dropped in sync router mode, the parsed username in any other mode. -/
def doDispatch (isAuth : Bool) (sessionAuth : Option AuthInfo)
    (routerType : List Nat) (packet : RespPacket) : DispatchResult :=
  if isAuth then .forward sessionAuth packet
  else if ¬ isAuthCmd packet then .replyToClient errNoAuth
  else
    let authInfo := (toAuthInfo packet).getD dfltAuthInfo
    if authInfo.tenantCode = 0 then .replyToClient errAuthFailed
    else if eqFoldAscii routerType (strBytes "sync") then
      .forward (some authInfo) (newAuthPacket none authInfo.password)
    else
      .forward (some authInfo) (newAuthPacket authInfo.username authInfo.password)

/-!  Backend connection writer loop (pkg/be_cluster/backend_conn.go).  -/

/-- TxState of a backend connection: the owning session and the phase. -/
structure TxStateC : Type where
  ownerSession : Nat
  phase : TxPhase
deriving DecidableEq, Repr

/-- RequestContext: the frame, the originating session (by id) and the
auth info travelling with it. -/
structure RequestCtx : Type where
  request : RespPacket
  session : Nat
  authInfo : Option AuthInfo
deriving Repr

/-- A response pushed to a session's OutQ. -/
structure ResponseCtx : Type where
  response : RespPacket
  toSession : Nat
deriving Repr

/-- NewErrResponseContext: an error packet carrying the error text. -/
def newErrResponseCtx (msg : List Nat) (sess : Nat) : ResponseCtx :=
  ⟨.mk RespError (some msg) none, sess⟩

/-- The queue and transaction state of one BackendConn that the writer
loop reads and writes; outQ collects the responses pushed to sessions. -/
structure ConnState : Type where
  writeQ : List RequestCtx
  pendingQ : List RequestCtx
  txState : Option TxStateC
  outQ : List ResponseCtx
  closed : Bool
deriving Repr

/-- Result of the WriteAndFlush socket call, supplied by the environment:
success, or an error whose IsBackendUnavailable classification is the
flag. -/
inductive WriteOutcome : Type where
  | success
  | failure (unavailable : Bool) (msg : List Nat)
deriving Repr

/-- One iteration of BackendConn.WriteLoop on a dequeued request: on a
write error push an error response to the request's session and tear the
connection down when the error is a connection failure; on success append
the context to pendingQ exactly when no transaction state is loaded. -/
def writerStep (st : ConnState) (outcome : WriteOutcome) : ConnState :=
  match st.writeQ with
  | [] => st
  | ctx :: rest =>
    match outcome with
    | .failure unavail msg =>
      let st1 := { st with
        writeQ := rest
        outQ := st.outQ ++ [newErrResponseCtx msg ctx.session] }
      if unavail then { st1 with closed := true } else st1
    | .success =>
      match st.txState with
      | none => { st with writeQ := rest, pendingQ := st.pendingQ ++ [ctx] }
      | some _ => { st with writeQ := rest }

/-!  Backend connection pool (fixed pool).  -/

/-- A BackendConn as the pool sees it: an identity (standing for the
underlying socket pointer the source compares) and its closed flag. -/
structure ConnHandle : Type where
  connId : Nat
  closed : Bool
deriving DecidableEq, Repr

/-- The PoolConfig fields the pool logic branches on. -/
structure PoolCfg : Type where
  poolSize : Nat
  maxIdleSize : Nat
  minIdleSize : Nat
  maxActiveSize : Nat
deriving Repr

/-- Pool errors: ErrClosed, ErrPoolExhausted, ErrPoolTimeout and a dial
failure bubbled out of the dialer. -/
inductive PoolErr : Type where
  | connClosed
  | exhausted
  | timeout
  | dialFailed
deriving DecidableEq, Repr

/-- BackendPool state: the slot-semaphore occupancy (the buffered queue
channel), the live and idle connection lists and their counters, and the
closed flag. -/
structure PoolState : Type where
  cfg : PoolCfg
  queueLen : Nat
  conns : List ConnHandle
  idleConns : List ConnHandle
  createConn : Nat
  idleConnLen : Nat
  errNums : Nat
  closed : Bool
deriving Repr

/-- The synchronous effect of checkMinIdleConns: while below the pool size
and the minimum idle count and a semaphore slot is free, take the slot and
bump both counters (the dial itself happens on a spawned goroutine and is
not part of this sequential step).  The loop is bounded by the pool size. -/
def checkMinIdleLoop : Nat → PoolState → PoolState
  | 0, p => p
  | fuel + 1, p =>
    if p.createConn < p.cfg.poolSize ∧ p.idleConnLen < p.cfg.minIdleSize ∧
        p.queueLen < p.cfg.poolSize then
      checkMinIdleLoop fuel { p with
        queueLen := p.queueLen + 1
        createConn := p.createConn + 1
        idleConnLen := p.idleConnLen + 1 }
    else p

/-- checkMinIdleConns: no-op for a zero minimum idle size. -/
def checkMinIdleConns (p : PoolState) : PoolState :=
  if p.cfg.minIdleSize = 0 then p else checkMinIdleLoop p.cfg.poolSize p

/-- tryRemoveConn: drop the first conns entry with the same identity,
decrement createConn and re-run checkMinIdleConns. -/
def tryRemoveConn (p : PoolState) (c : ConnHandle) : PoolState :=
  match p.conns.findIdx? (fun x => x.connId = c.connId) with
  | none => p
  | some i =>
    checkMinIdleConns { p with
      conns := p.conns.take i ++ p.conns.drop (i + 1)
      createConn := p.createConn - 1 }

/-- removeConnAndClose: tryRemoveConn then close the connection. -/
def removeConnAndClose (p : PoolState) (c : ConnHandle) : PoolState :=
  tryRemoveConn p c

/-- getIdleConn: error on a closed pool; otherwise pop the last idle
connection (LIFO) if any, decrement the idle counter and top the idle set
back up. -/
def getIdleConn (p : PoolState) : Except PoolErr (Option ConnHandle × PoolState) :=
  if p.closed then .error .connClosed
  else
    match p.idleConns.getLast? with
    | none => .ok (none, p)
    | some conn =>
      .ok (some conn, checkMinIdleConns { p with
        idleConns := p.idleConns.dropLast
        idleConnLen := p.idleConnLen - 1 })

/-- The socket and timing outcomes one Get call depends on, supplied by
the environment: whether the slot semaphore was acquired within the wait
timeout, the checkConn health verdict per connection, and the dialer
outcome. -/
structure GetEnv : Type where
  slotOk : Bool
  healthy : Nat → Bool
  dialResult : Option ConnHandle

/-- dialConn: refuse on a closed pool; short-circuit after poolSize
consecutive dial errors (the last dial error is surfaced); otherwise ask
the dialer. -/
def dialConn (p : PoolState) (env : GetEnv) : Except PoolErr ConnHandle :=
  if p.closed then .error .connClosed
  else if p.cfg.poolSize ≤ p.errNums then .error .dialFailed
  else
    match env.dialResult with
    | none => .error .dialFailed
    | some c => .ok c

/-- makeConn: re-check closed, enforce MaxActiveSize before and after the
dial, then record the new connection in conns. -/
def makeConn (p : PoolState) (env : GetEnv) : Except PoolErr (ConnHandle × PoolState) :=
  if p.closed then .error .connClosed
  else if 0 < p.cfg.maxActiveSize ∧ p.cfg.maxActiveSize ≤ p.createConn then .error .exhausted
  else
    match dialConn p env with
    | .error e => .error e
    | .ok c =>
      if 0 < p.cfg.maxActiveSize ∧ p.cfg.maxActiveSize ≤ p.createConn then .error .exhausted
      else .ok (c, { p with conns := p.conns ++ [c], createConn := p.createConn + 1 })

/-- The idle-scan loop of Get: pop idle connections until a healthy one is
found (returned) or none is left (fall through to makeConn, signalled by
none); an unhealthy one is removed and closed and the loop continues.  The
fuel is the idle list length, which the loop strictly decreases. -/
def poolGetLoop (env : GetEnv) : Nat → PoolState → Except PoolErr (Option ConnHandle × PoolState)
  | 0, p => .ok (none, p)
  | fuel + 1, p =>
    match getIdleConn p with
    | .error e => .error e
    | .ok (none, p1) => .ok (none, p1)
    | .ok (some c, p1) =>
      if env.healthy c.connId then .ok (some c, p1)
      else poolGetLoop env fuel (removeConnAndClose p1 c)

/-- BackendPool.Get: refuse on a closed pool, acquire a slot (ErrPoolTimeout
on failure), scan the idle list, and dial a new connection when no idle
one is usable. -/
def poolGet (p : PoolState) (env : GetEnv) : Except PoolErr (ConnHandle × PoolState) :=
  if p.closed then .error .connClosed
  else if ¬ env.slotOk then .error .timeout
  else
    let p0 := { p with queueLen := p.queueLen + 1 }
    match poolGetLoop env (p0.idleConns.length + 1) p0 with
    | .error e => .error e
    | .ok (some c, p1) => .ok (c, p1)
    | .ok (none, p1) => makeConn p1 env

/-- BackendPool.Close: CAS the closed flag (ErrClosed when already set),
close every connection in conns, and reset the pool (conns and idleConns
cleared, counters zeroed).  The closed connections are returned so that
their final state can be observed. -/
def poolClose (p : PoolState) : Except PoolErr (PoolState × List ConnHandle) :=
  if p.closed then .error .connClosed
  else
    .ok ({ p with
            closed := true
            conns := []
            idleConns := []
            createConn := 0
            idleConnLen := 0 },
         p.conns.map (fun c => { c with closed := true }))

/-!  Concrete frames and states used by the claim theorems below.  -/

/-- A bulk-string packet, as the reader produces for command arguments. -/
def bulkOf (s : String) : RespPacket := .mk RespString (some (strBytes s)) none

/-- An array packet with the given children. -/
def arrOf (l : List RespPacket) : RespPacket := .mk RespArray none (some l)

/-- The boolean-true packet the reader produces for the wire bytes #t. -/
def boolTruePacket : RespPacket := .mk RespBool (some (strBytes "true")) none

/-- An EXEC frame, the transaction terminator. -/
def execFrame : RespPacket := arrOf [bulkOf "EXEC"]

/-- A backend connection in End phase of a transaction owned by session 7,
with that transaction's EXEC terminator queued for writing. -/
def c2State : ConnState :=
  ⟨[⟨execFrame, 7, none⟩], [], some ⟨7, .phaseEnd⟩, [], false⟩

/-- The same connection with no active transaction. -/
def c2IdleState : ConnState :=
  ⟨[⟨execFrame, 7, none⟩], [], none, [], false⟩

/-- A client AUTH frame with a tenant prefix: AUTH 1.admin pw. -/
def clientAuthFrame : RespPacket :=
  arrOf [bulkOf "AUTH", bulkOf "1.admin", bulkOf "pw"]

/-- A non-AUTH frame: GET k. -/
def getFrame : RespPacket := arrOf [bulkOf "GET", bulkOf "k"]

/-- A password-only AUTH frame: AUTH pw (its parsed tenant code is 0). -/
def authTwoFrame : RespPacket := arrOf [bulkOf "AUTH", bulkOf "pw"]

/-- A four-element AUTH frame: AUTH a b c. -/
def authFourFrame : RespPacket :=
  arrOf [bulkOf "AUTH", bulkOf "a", bulkOf "b", bulkOf "c"]

/-- An array packet whose only child is a simple status, not a bulk
string. -/
def statusChildArray : RespPacket :=
  .mk RespArray none (some [.mk RespStatus (some (strBytes "OK")) none])

/-- A two-connection pool that has not been closed. -/
def c7Pool : PoolState :=
  ⟨⟨2, 2, 0, 10⟩, 0, [⟨1, false⟩, ⟨2, false⟩], [⟨1, false⟩], 2, 1, 0, false⟩

/-- The state poolClose leaves c7Pool in. -/
def c7PoolClosed : PoolState := ⟨⟨2, 2, 0, 10⟩, 0, [], [], 0, 0, 0, true⟩

/-- A benign environment for a Get call. -/
def c7Env : GetEnv := ⟨true, fun _ => true, none⟩

end Elika

namespace Elika

/-!  Theorems settling the claims.  -/

/-- C1 (code bug): the round-trip law write(read(bytes)) = bytes fails on
the canonical RESP3 boolean true: the reader stores the bytes true for #t,
but the writer emits t only when the stored data is exactly t, so
write(read("#t CRLF")) produces "#f CRLF" - the proxy flips the boolean. -/
theorem c1_bool_roundtrip_code_bug :
    respRead 10 (strBytes "#t\r\n") = .ok boolTruePacket [] ∧
    respWrite boolTruePacket = .ok (strBytes "#f\r\n") ∧
    strBytes "#f\r\n" ≠ strBytes "#t\r\n" :=
  ⟨rfl, rfl, by decide⟩

/-- C9 (code bug): RespReader.Read is not total: a declared length that is
negative but not -1 reaches a Go make call with a negative size and
panics, both for aggregates (star -2) and for bulk strings (dollar -2),
instead of returning a syntax error. -/
theorem c9_negative_length_panics :
    respRead 10 (strBytes "*-2\r\n") = .panicked ∧
    respRead 10 (strBytes "$-2\r\n") = .panicked :=
  ⟨rfl, rfl⟩

/-- C5 counterexample: Write on an Array whose only child is the simple
status OK emits the child in status framing (+OK), not in the bulk-string
framing ($2 CRLF OK) the claim requires for every child. -/
theorem c5_counterexample :
    respWrite statusChildArray = .ok (strBytes "*1\r\n+OK\r\n") ∧
    strBytes "*1\r\n+OK\r\n" ≠ strBytes "*1\r\n$2\r\nOK\r\n" :=
  ⟨rfl, by decide⟩

/-- C5 amended: Write serializes an Array via WriteArray, which emits each
child with its own stored tag; the coercion of children to bulk-string
framing exists only in writeArrayLike under the array prefix, a
combination Write never invokes for arrays. -/
theorem c5_array_children_own_tags (dat : Option (List Nat)) (l : List RespPacket) :
    respWrite (.mk RespArray dat (some l)) =
      (writeOwnElems l).map
        (fun body => RespArray :: natToBytes l.length ++ crlf ++ body) ∧
    writeALElems RespArray l = .ok ((l.map (fun p => writeBulkString p.dat)).flatten) := by
  constructor
  · cases h : writeOwnElems l <;>
      simp [respWrite, h, RespArray, RespStatus, RespError, RespInt, RespString, Except.map]
  · induction l with
    | nil => rfl
    | cons p ps ih => simp [writeALElems, ih]

/-- C6 counterexample: an aggregate whose declared element count is
1048577 is rejected with ErrTooLarge by Read even though 1048577 is far
below 512 MiB, refuting the claim that counts up to 512 MiB are
accepted. -/
theorem c6_counterexample :
    respRead 2 (strBytes "*1048577\r\n") = .err .tooLarge ∧
    (1048577 : Int) < 536870912 :=
  ⟨rfl, by decide⟩

/-- skipCRLF can fail with an io error or ErrInvalidSyntax but never with
ErrTooLarge. -/
theorem skipCRLF_ne_tooLarge (l : List Nat) : skipCRLF l ≠ .error .tooLarge := by
  cases l with
  | nil => simp [skipCRLF]
  | cons b rest =>
    cases rest with
    | nil =>
      simp only [skipCRLF]
      split <;> simp
    | cons c r2 =>
      simp only [skipCRLF]
      split
      · simp
      · split <;> simp

/-- C6 amended: once the declared length has been parsed, ReadResp3Len
(aggregate element counts) rejects with ErrTooLarge exactly above
1048576 = 1024 * 1024, while BulkReadStringWithMarker (bulk-string,
blob-error and verbatim payload lengths) rejects with ErrTooLarge exactly
above 536870912 = 512 MiB. -/
theorem c6_length_limits (marker : Nat) (tail : List Nat) (len : Int) (rest : List Nat)
    (h : readInt tail = .ok (len, rest)) :
    (readResp3Len marker (marker :: tail) = .error .tooLarge ↔ 1024 * 1024 < len) ∧
    (bulkReadStringWithMarker marker (marker :: tail) = .err .tooLarge ↔
      512 * 1024 * 1024 < len) := by
  constructor
  · simp only [readResp3Len, if_neg (by simp : ¬ marker ≠ marker), h]
    split
    · simp; omega
    · simp; omega
  · simp only [bulkReadStringWithMarker, if_neg (by simp : ¬ marker ≠ marker), h]
    by_cases h1 : len = -1
    · rw [if_pos h1]
      simp
      omega
    · rw [if_neg h1]
      by_cases h2 : 512 * 1024 * 1024 < len
      · rw [if_pos h2]
        exact ⟨fun _ => by omega, fun _ => rfl⟩
      · rw [if_neg h2]
        by_cases h3 : len < 0
        · rw [if_pos h3]
          simp
          omega
        · rw [if_neg h3]
          constructor
          · intro hc
            exfalso
            by_cases h4 : rest.length < len.toNat
            · rw [if_pos h4] at hc
              exact absurd hc (by simp)
            · rw [if_neg h4] at hc
              rcases he : skipCRLF (rest.drop len.toNat) with e | r2
              · simp only [he] at hc
                cases hc
                exact skipCRLF_ne_tooLarge _ he
              · simp only [he] at hc
                exact absurd hc (by simp)
          · intro hc
            omega

/-- C6 witness: a declared length of 600000000 sits between the two
limits: accepted as a bulk payload length, rejected as an aggregate
count. -/
theorem c6_witness :
    (readResp3Len 36 (36 :: strBytes "600000000\r\n") = .error .tooLarge ↔
      (1024 * 1024 : Int) < 600000000) ∧
    (bulkReadStringWithMarker 36 (36 :: strBytes "600000000\r\n") = .err .tooLarge ↔
      (512 * 1024 * 1024 : Int) < 600000000) :=
  c6_length_limits 36 (strBytes "600000000\r\n") 600000000 [] rfl

/-- C2 counterexample: with a transaction in End phase active on the
connection, the successfully written EXEC terminator is NOT appended to
pendingQ (pendingQ stays empty), although the claim requires the
terminator of an active transaction to still be appended. -/
theorem c2_counterexample :
    isTxCmd execFrame = some .phaseEnd ∧
    c2State.txState ≠ none ∧
    (writerStep c2State .success).pendingQ = ([] : List RequestCtx) := by
  refine ⟨rfl, by simp [c2State], rfl⟩

/-- C2 amended: a request dequeued by the writer loop and successfully
written is appended to pendingQ exactly when no transaction state is
loaded on the connection at that moment; whenever a transaction is active
- including for its own EXEC/DISCARD terminator - nothing is appended. -/
theorem c2_pendingq_append_iff_no_tx (st : ConnState) (ctx : RequestCtx)
    (rest : List RequestCtx) (h : st.writeQ = ctx :: rest) :
    ((writerStep st .success).pendingQ = st.pendingQ ++ [ctx] ↔ st.txState = none) ∧
    (st.txState ≠ none → (writerStep st .success).pendingQ = st.pendingQ) := by
  cases st with
  | mk writeQ pendingQ txState outQ closed =>
    simp only [ConnState.writeQ] at h
    subst h
    cases txState with
    | none => simp [writerStep]
    | some t =>
      constructor
      · constructor
        · intro hc
          exfalso
          have hl := congrArg List.length hc
          simp [writerStep] at hl
        · intro hc
          exact absurd hc (by simp)
      · intro _
        rfl

/-- C2 witness: with no transaction active, the written request is
appended to pendingQ. -/
theorem c2_witness :
    ((writerStep c2IdleState .success).pendingQ =
        c2IdleState.pendingQ ++ [⟨execFrame, 7, none⟩] ↔ c2IdleState.txState = none) ∧
    (c2IdleState.txState ≠ none →
      (writerStep c2IdleState .success).pendingQ = c2IdleState.pendingQ) :=
  c2_pendingq_append_iff_no_tx c2IdleState ⟨execFrame, 7, none⟩ [] rfl

/-- toAuthInfo only succeeds on frames IsAuthCmd accepts. -/
theorem toAuthInfo_some_isAuthCmd (p : RespPacket) (ai : AuthInfo)
    (h : toAuthInfo p = some ai) : isAuthCmd p = true := by
  by_cases hc : isAuthCmd p
  · exact hc
  · simp [toAuthInfo, hc] at h

/-- C3 counterexample: in static router mode the accepted client frame
AUTH 1.admin pw is not forwarded as-is: the proxy forwards a rebuilt AUTH
frame whose username is admin, with the tenant prefix stripped, not the
1.admin the client sent. -/
theorem c3_counterexample :
    doDispatch false none (strBytes "static") clientAuthFrame =
      .forward (some ⟨some (strBytes "admin"), some (strBytes "pw"), 1⟩)
        (newAuthPacket (some (strBytes "admin")) (some (strBytes "pw"))) ∧
    strBytes "admin" ≠ strBytes "1.admin" :=
  ⟨rfl, by decide⟩

/-- C3 amended: for an accepted AUTH frame (parsed tenant code nonzero),
the dispatcher forwards a rebuilt AUTH frame: in sync router mode with the
username dropped entirely (AUTH password), and in any other mode (static)
with the parsed username - the client username with its tenant prefix
stripped - together with the password; in neither mode is the original
frame passed through unchanged. -/
theorem c3_auth_rewrite (routerType : List Nat) (sessionAuth : Option AuthInfo)
    (packet : RespPacket) (ai : AuthInfo)
    (h1 : toAuthInfo packet = some ai) (h2 : ai.tenantCode ≠ 0) :
    doDispatch false sessionAuth routerType packet =
      .forward (some ai)
        (newAuthPacket
          (if eqFoldAscii routerType (strBytes "sync") then none else ai.username)
          ai.password) := by
  have hcmd := toAuthInfo_some_isAuthCmd packet ai h1
  by_cases hr : eqFoldAscii routerType (strBytes "sync") <;>
    simp [doDispatch, hcmd, h1, h2, hr]

/-- C3 witness: the amended rewriting applied to AUTH 1.admin pw in static
mode. -/
theorem c3_witness :
    doDispatch false none (strBytes "static") clientAuthFrame =
      .forward (some ⟨some (strBytes "admin"), some (strBytes "pw"), 1⟩)
        (newAuthPacket
          (if eqFoldAscii (strBytes "static") (strBytes "sync") then none
           else some (strBytes "admin"))
          (some (strBytes "pw"))) :=
  c3_auth_rewrite (strBytes "static") none clientAuthFrame
    ⟨some (strBytes "admin"), some (strBytes "pw"), 1⟩ rfl (by decide)

/-- C4: a frame from an unauthenticated session that is not an AUTH
command is answered with the NOAUTH error, and an AUTH frame whose parsed
tenant code is 0 is answered with the WRONGPASS error; in both cases the
dispatcher replies to the client and forwards nothing. -/
theorem c4_unauthenticated_gate (routerType : List Nat)
    (sessionAuth : Option AuthInfo) (packet : RespPacket) :
    (isAuthCmd packet = false →
      doDispatch false sessionAuth routerType packet = .replyToClient errNoAuth) ∧
    (∀ ai, toAuthInfo packet = some ai → ai.tenantCode = 0 →
      doDispatch false sessionAuth routerType packet = .replyToClient errAuthFailed) := by
  constructor
  · intro hcmd
    simp [doDispatch, hcmd]
  · intro ai h1 h2
    have hcmd := toAuthInfo_some_isAuthCmd packet ai h1
    simp [doDispatch, hcmd, h1, h2]

/-- C4 witness: the gate applied to the concrete frames GET k (NOAUTH)
and AUTH pw (tenant code 0, WRONGPASS). -/
theorem c4_witness :
    doDispatch false none (strBytes "sync") getFrame = .replyToClient errNoAuth ∧
    doDispatch false none (strBytes "sync") authTwoFrame = .replyToClient errAuthFailed :=
  ⟨(c4_unauthenticated_gate (strBytes "sync") none getFrame).1 rfl,
   (c4_unauthenticated_gate (strBytes "sync") none authTwoFrame).2
     ⟨none, some (strBytes "pw"), 0⟩ rfl rfl⟩

/-- C10: for an AUTH frame whose element count is not 3 (in particular 4
or more elements), ToAuthInfo yields a nil username, tenant code 0 and the
second element as password; only a 3-element frame is split at the first
dot, the prefix base62-decoding into the tenant code (which is 0 when no
dot is present). -/
theorem c10_toAuthInfo_shape (p : RespPacket) (l : List RespPacket)
    (h1 : isAuthCmd p = true) (h2 : p.arr = some l) :
    (l.length ≠ 3 →
      toAuthInfo p = some ⟨none, (l.getD 1 dfltPacket).dat, 0⟩) ∧
    (∀ a b c, l = [a, b, c] →
      (bytesOf b.dat).findIdx? (fun x => x = 46) = none →
      toAuthInfo p = some ⟨b.dat, c.dat, 0⟩) ∧
    (∀ a b c idx, l = [a, b, c] →
      (bytesOf b.dat).findIdx? (fun x => x = 46) = some idx →
      toAuthInfo p =
        some ⟨some ((bytesOf b.dat).drop (idx + 1)), c.dat,
          decodeOrZero ((bytesOf b.dat).take idx)⟩) := by
  refine ⟨fun h3 => ?_, fun a b c hl hdot => ?_, fun a b c idx hl hdot => ?_⟩
  · simp [toAuthInfo, h1, h2, h3]
  · subst hl
    simp [toAuthInfo, h1, h2, hdot, decodeOrZero, decodeBase62, decodeLoop]
  · subst hl
    simp [toAuthInfo, h1, h2, hdot]

/-- C10 witness: the four-element frame AUTH a b c parses to a nil
username, password a and tenant code 0. -/
theorem c10_witness :
    toAuthInfo authFourFrame = some ⟨none, some (strBytes "a"), 0⟩ :=
  (c10_toAuthInfo_shape authFourFrame
    [bulkOf "AUTH", bulkOf "a", bulkOf "b", bulkOf "c"] rfl rfl).1 (by decide)

/-- C7: after a successful BackendPool.Close, every Get on the pool
returns the Closed error, every connection that was in the conns list has
been closed, and the conns and idleConns slices are cleared. -/
theorem c7_close_then_get (p q : PoolState) (cs : List ConnHandle) (env : GetEnv)
    (h : poolClose p = .ok (q, cs)) :
    poolGet q env = .error .connClosed ∧
    cs.all (fun c => c.closed) = true ∧
    q.conns = [] ∧ q.idleConns = [] := by
  unfold poolClose at h
  by_cases hp : p.closed
  · rw [if_pos hp] at h
    exact absurd h (by simp)
  · rw [if_neg hp] at h
    injection h with h
    injection h with hq hcs
    subst hq
    subst hcs
    refine ⟨by simp [poolGet], by simp [List.all_eq_true], rfl, rfl⟩

/-- C7 witness: closing a concrete two-connection pool. -/
theorem c7_witness :
    poolGet c7PoolClosed c7Env = .error .connClosed ∧
    List.all [⟨1, true⟩, ⟨2, true⟩] (fun c : ConnHandle => c.closed) = true ∧
    c7PoolClosed.conns = [] ∧ c7PoolClosed.idleConns = [] :=
  c7_close_then_get c7Pool c7PoolClosed [⟨1, true⟩, ⟨2, true⟩] c7Env rfl

/-- decodeLoop distributes over list append, stopping at the first
invalid character. -/
theorem decodeLoop_append (acc : Nat) (l1 l2 : List Nat) :
    decodeLoop acc (l1 ++ l2) =
      match decodeLoop acc l1 with
      | .ok a => decodeLoop a l2
      | .error e => .error e := by
  induction l1 generalizing acc with
  | nil => simp [decodeLoop]
  | cons c cs ih =>
    simp only [List.cons_append, decodeLoop]
    cases encodingAlphabet.findIdx? (fun b => b = c) with
    | none => rfl
    | some pos => simp [ih]

/-- The 64 alphabet characters are pairwise distinct, so looking up the
character at one of the 62 emitted positions finds that position. -/
theorem alph_findIdx (d : Nat) (hd : d < 62) :
    encodingAlphabet.findIdx? (fun b => b = encodingAlphabet.getD d 0) = some d := by
  revert hd
  revert d
  decide

/-- Decoding the reversed digit emission of n on top of an accumulator
recovers acc * 62 ^ digits + n, the uint64 wrap never firing below
2 ^ 64. -/
theorem decodeLoop_encodeLoop (n : Nat) : ∀ acc : Nat,
    acc * 62 ^ (encodeLoop n).length + n < 2 ^ 64 →
    decodeLoop acc (encodeLoop n).reverse = .ok (acc * 62 ^ (encodeLoop n).length + n) := by
  induction n using Nat.strong_induction_on with
  | _ n ih =>
    intro acc hlt
    by_cases h0 : n = 0
    · subst h0
      rw [encodeLoop]
      simp [decodeLoop]
    · have hrw : encodeLoop n = encodingAlphabet.getD (n % 62) 0 :: encodeLoop (n / 62) := by
        rw [encodeLoop]
        simp [h0]
      rw [hrw] at hlt ⊢
      simp only [List.length_cons] at hlt ⊢
      rw [List.reverse_cons, decodeLoop_append]
      have hdiv : n / 62 < n := Nat.div_lt_self (Nat.pos_of_ne_zero h0) (by norm_num)
      have hb : acc * 62 ^ (encodeLoop (n / 62)).length + n / 62 < 2 ^ 64 := by
        refine lt_of_le_of_lt (add_le_add ?_ (Nat.div_le_self n 62)) hlt
        exact Nat.mul_le_mul_left _ (Nat.pow_le_pow_right (by norm_num) (Nat.le_succ _))
      rw [ih (n / 62) hdiv acc hb]
      simp only [decodeLoop, alph_findIdx (n % 62) (Nat.mod_lt _ (by norm_num))]
      have harith :
          (acc * 62 ^ (encodeLoop (n / 62)).length + n / 62) * 62 + n % 62 =
            acc * 62 ^ ((encodeLoop (n / 62)).length + 1) + n := by
        have hmod : 62 * (n / 62) + n % 62 = n := Nat.div_add_mod n 62
        rw [pow_succ]
        ring_nf
        ring_nf at hmod
        omega
      rw [harith, Nat.mod_eq_of_lt hlt]

/-- C8: for every uint64 value n, DecodeBase62 (EncodeBase62 n) = n: both
functions agree on the least-significant-digit-first convention over the
same alphabet, every emitted character is found at its own position, and
no intermediate decode value exceeds the uint64 range. -/
theorem c8_base62_roundtrip (n : Nat) (h : n < 2 ^ 64) :
    decodeBase62 (encodeBase62 n) = .ok n := by
  by_cases h0 : n = 0
  · subst h0
    rfl
  · unfold decodeBase62 encodeBase62
    rw [if_neg h0]
    have hmain := decodeLoop_encodeLoop n 0 (by simpa using h)
    simpa using hmain

/-- C8 witness: the round trip at the concrete tenant code 238327. -/
theorem c8_witness :
    (238327 : Nat) < 2 ^ 64 ∧ decodeBase62 (encodeBase62 238327) = .ok 238327 :=
  ⟨by norm_num, c8_base62_roundtrip 238327 (by norm_num)⟩

end Elika
